import Mathlib

/-!
Verification of the weasyprint-docker server (`server.py`).

The development shallowly embeds the request pipeline of `server.py`:
the `URLFetcher` access-control callback, the multipart ingestion loop of
`render_pdf` together with `save_part_to_file`, the workspace lifecycle of
the `with tempfile.TemporaryDirectory()` blocks (modelled as an event
trace), and the query-parameter handler `render_pdf_url`.

Library collaborators that the server calls (`urllib.parse.urlparse`,
`os.path.join` / `abspath` / `normpath` / `basename`) are embedded from
their CPython (3.11) `posixpath` / `urllib.parse` definitions, operating
on `List Char` so that everything evaluates by `decide`.  `urlparse` is
embedded as a three-way outcome: a parse, the `ValueError` it raises for a
bracket-mismatched netloc, or an explicit "outside the modeled fragment"
marker for netlocs whose validation needs `ipaddress` or NFKC
normalization; theorems about the fetcher assume a successful parse or
exhibit a raising one.
-/

set_option autoImplicit false

namespace WeasyServer

abbrev Chars := List Char

/-! ### posixpath helpers (CPython `posixpath.py`) -/

/-- `os.path.isabs` on POSIX: the path starts with a slash. -/
def isAbs (p : String) : Bool := p.data.take 1 = ['/']

/-- `os.path.join(a, b)` on POSIX: an absolute second argument discards the
first; otherwise the parts are concatenated with a separator unless one is
already present. -/
def pathJoin (a b : String) : String :=
  if b.data.take 1 = ['/'] then b
  else if a.data = [] ∨ a.data.getLast? = some '/' then a ++ b
  else a ++ "/" ++ b

/-- Split a character list at every slash, keeping empty components, as
`path.split('/')` does. -/
def splitSlash : Chars → List Chars
  | [] => [[]]
  | '/' :: rest => [] :: splitSlash rest
  | c :: rest =>
    match splitSlash rest with
    | g :: gs => (c :: g) :: gs
    | [] => [[c]]

/-- Join components with slashes, as `'/'.join(comps)`. -/
def joinSlash : List Chars → Chars
  | [] => []
  | [c] => c
  | c :: cs => c ++ '/' :: joinSlash cs

/-- The component loop of `posixpath.normpath`: drop empty and `.`
components, let `..` cancel a preceding real component, and keep `..` when
there is nothing to cancel and the path is relative.  The accumulator holds
the retained components in reverse. -/
def npLoop (initSlash : Bool) : List Chars → List Chars → List Chars
  | [], acc => acc
  | c :: cs, acc =>
    if c = ([] : Chars) ∨ c = ['.'] then npLoop initSlash cs acc
    else if c ≠ ['.', '.'] ∨ (initSlash = false ∧ acc = []) ∨ acc.head? = some ['.', '.'] then
      npLoop initSlash cs (c :: acc)
    else
      npLoop initSlash cs acc.tail

/-- `os.path.normpath` on POSIX: collapse `.`/`..`/empty components,
keeping one leading slash (or exactly two, which POSIX distinguishes). -/
def normpath (p : String) : String :=
  if p = "" then "."
  else
    let d := p.data
    let initSlashes : Nat :=
      if d.take 1 = ['/'] then
        if d.take 2 = ['/', '/'] ∧ d.take 3 ≠ ['/', '/', '/'] then 2 else 1
      else 0
    let newComps := (npLoop (initSlashes ≠ 0) (splitSlash d) []).reverse
    let res := List.replicate initSlashes '/' ++ joinSlash newComps
    if res = [] then "." else res.asString

/-- `os.path.abspath`: join onto the working directory when relative, then
normalize.  Symbolic links are NOT resolved (that would be
`os.path.realpath`). -/
def abspath (cwd p : String) : String :=
  normpath (if isAbs p then p else pathJoin cwd p)

/-- `os.path.basename`: everything after the last slash. -/
def basename (p : String) : String :=
  ((p.data.reverse.takeWhile (· != '/')).reverse).asString

/-! ### urllib.parse.urlparse (CPython `urllib/parse.py`) -/

/-- A character the WHATWG preprocessing strips from the front of a URL:
C0 controls and space. -/
def c0OrSpace (c : Char) : Bool := c.toNat ≤ 32

/-- Tab, CR and LF are removed from anywhere in the URL. -/
def isTabCrLf (c : Char) : Bool := c = '\t' || c = '\r' || c = '\n'

/-- The preprocessing `urlsplit` applies before parsing. -/
def preprocessUrl (u : Chars) : Chars :=
  (u.dropWhile c0OrSpace).filter (fun c => !isTabCrLf c)

/-- A character allowed in a URL scheme. -/
def isSchemeChar (c : Char) : Bool :=
  c.isAlpha || c.isDigit || c = '+' || c = '-' || c = '.'

/-- Scheme extraction of `urlsplit`: text before the first colon, when it
starts with a letter and is made of scheme characters, lower-cased. -/
def splitScheme (u : Chars) : Chars × Chars :=
  match u.findIdx? (· == ':') with
  | some i =>
    if 0 < i ∧ (u.take i).all isSchemeChar ∧ (u.headD ' ').isAlpha then
      ((u.take i).map Char.toLower, u.drop (i + 1))
    else ([], u)
  | none => ([], u)

/-- `_splitnetloc`: after a leading `//`, the netloc runs until the first
`/`, `?` or `#`. -/
def splitNetloc (u : Chars) : Chars × Chars :=
  let rest := u.drop 2
  let n := rest.takeWhile (fun c => !(c == '/' || c == '?' || c == '#'))
  (n, rest.drop n.length)

/-- `url.split(sep, 1)`: the part before the first occurrence, and the part
after it (empty when the separator is absent). -/
def splitAtFirst (sep : Char) (u : Chars) : Chars × Chars :=
  let pre := u.takeWhile (· != sep)
  (pre, u.drop (pre.length + 1))

/-- `_splitparams`: split parameters off the last path segment at the first
semicolon occurring at or after the last slash. -/
def splitParamsL (u : Chars) : Chars × Chars :=
  if u.contains ';' then
    if u.contains '/' then
      let lastSlash := u.length - 1 - ((u.reverse.findIdx? (· == '/')).getD 0)
      match (u.drop lastSlash).findIdx? (· == ';') with
      | some j => (u.take (lastSlash + j), u.drop (lastSlash + j + 1))
      | none => (u, [])
    else
      match u.findIdx? (· == ';') with
      | some j => (u.take j, u.drop (j + 1))
      | none => (u, [])
  else (u, [])

structure UrlParts where
  scheme : String
  netloc : String
  path : String
  params : String
  query : String
  fragment : String
deriving DecidableEq, Repr

/-- The schemes for which `urlparse` splits `;parameters` off the last
path segment (`urllib.parse.uses_params`); note that `file` and `data` are
not in it, while the empty scheme is. -/
def uses_params : List String :=
  ["", "ftp", "hdl", "prospero", "http", "imap", "https", "shttp", "rtsp",
   "rtspu", "sip", "sips", "mms", "sftp", "tel"]

/-- What a call to `urllib.parse.urlparse` does: return a parse, raise the
`ValueError("Invalid IPv6 URL")` that `urlsplit` raises for a netloc with
mismatched square brackets, or fall outside the modeled fragment.  The
latter covers netlocs with a (matched) bracketed host, whose
`_check_bracketed_host` validation needs `ipaddress`, and non-ASCII
netlocs, whose `_checknetloc` validation needs NFKC normalization; neither
library is modeled, so no claim is made about such locators.  For ASCII,
bracket-free netlocs those CPython checks return without raising, and the
`ok` case is exact. -/
inductive ParseOutcome where
  | ok (parts : UrlParts)
  | invalidIpv6
  | unmodeledNetloc
deriving DecidableEq, Repr

/-- `urllib.parse.urlparse` (CPython 3.11): preprocessing, scheme, netloc
(with the bracket checks), fragment, query, and — only for `uses_params`
schemes — parameter splitting, in CPython's order. -/
def urlparse (url : String) : ParseOutcome :=
  let u := preprocessUrl url.data
  let (sch, r1) := splitScheme u
  let (netloc, r2) := if r1.take 2 = ['/', '/'] then splitNetloc r1 else (([] : Chars), r1)
  if (netloc.contains '[' ∧ ¬ netloc.contains ']') ∨
      (netloc.contains ']' ∧ ¬ netloc.contains '[') then
    .invalidIpv6
  else if netloc.contains '[' ∨ ¬ netloc.all (fun c => c.toNat ≤ 127) then
    .unmodeledNetloc
  else
    let (r3, fragment) := splitAtFirst '#' r2
    let (r4, query) := splitAtFirst '?' r3
    let (path, params) :=
      if sch.asString ∈ uses_params then splitParamsL r4 else (r4, ([] : Chars))
    .ok ⟨sch.asString, netloc.asString, path.asString, params.asString,
         query.asString, fragment.asString⟩

/-! ### URLFetcher (`server.py`, lines 23-40) -/

/-- Outcome of `URLFetcher.__call__`: delegate to
`weasyprint.default_url_fetcher`, raise one of its own two `ValueError`s,
let a `ValueError` raised inside `urlparse` propagate, or fall outside the
modeled netloc fragment. -/
inductive FetchResult where
  /-- `return default_url_fetcher(url)` -/
  | delegate (url : String)
  /-- `raise ValueError('Only known path allowed')` -/
  | errKnownPath
  /-- `raise ValueError('External resources are not allowed')` -/
  | errExternal
  /-- a `ValueError` raised by `urlparse` itself, propagating uncaught out
  of `__call__` -/
  | errParse (msg : String)
  /-- the locator's netloc validation is outside the modeled fragment of
  `urlparse`; nothing is claimed about it -/
  | unmodeled
deriving DecidableEq, Repr

/-- `URLFetcher.__call__(self, url)`.  `validPaths` is the captured
`valid_paths`; `cwd` is the process working directory `os.path.abspath`
resolves relative paths against. -/
def urlFetcherCall (validPaths : List String) (cwd url : String) : FetchResult :=
  match urlparse url with
  | .invalidIpv6 => .errParse "Invalid IPv6 URL"
  | .unmodeledNetloc => .unmodeled
  | .ok parsed =>
    if parsed.scheme = "data" then
      .delegate url
    else if (parsed.scheme = "" ∨ parsed.scheme = "file") ∧ parsed.path ≠ "" then
      if abspath cwd parsed.path ∈ validPaths then .delegate url
      else .errKnownPath
    else
      .errExternal

/-- Modelled from the spec: the "absolute, symlink-free" canonical form of
a path, over an explicit symbolic-link table mapping an absolute path to
its target (what `os.path.realpath` would compute on such a filesystem).
The code itself never consults a link table. -/
def canonicalSpecPath (links : List (String × String)) (cwd p : String) : String :=
  let a := abspath cwd p
  match links.lookup a with
  | some t => t
  | none => a

/-! ### Multipart ingestion (`render_pdf` and `save_part_to_file`) -/

/-- One multipart section as the handler sees it: its form-field name and
its declared filename, both client-controlled. -/
structure Part where
  name : String
  filename : String
deriving DecidableEq, Repr

/-- The part-name filter of the ingestion loop (`server.py` lines 64-68). -/
def acceptedName (n : String) : Bool :=
  n = "html" || n = "css" ||
    "attachment.".data.isPrefixOf n.data || "asset.".data.isPrefixOf n.data

/-- `save_part_to_file(part, directory)` returns
`os.path.join(directory, part.filename)`, the path the content is written
to. -/
def savePartToFile (dir : String) (p : Part) : String := pathJoin dir p.filename

/-- `form_data[k]` lookup (Python dict: at most one entry per key). -/
def dictGet : List (String × String) → String → Option String
  | [], _ => none
  | (k, v) :: rest, n => if k = n then some v else dictGet rest n

/-- `form_data[k] = v`: overwrite in place when the key is present,
otherwise append (Python dict insertion-order semantics). -/
def dictSet (d : List (String × String)) (k v : String) : List (String × String) :=
  match d with
  | [] => [(k, v)]
  | (k', v') :: rest => if k' = k then (k, v) :: rest else (k', v') :: dictSet rest k v

/-- The `while True` part loop of `render_pdf`: each accepted part is saved
and recorded in `form_data`. -/
def ingestLoop (dir : String) : List Part → List (String × String) → List (String × String)
  | [], fd => fd
  | p :: ps, fd =>
    ingestLoop dir ps (if acceptedName p.name then dictSet fd p.name (savePartToFile dir p) else fd)

/-- The `form_data` mapping after the part loop finishes. -/
def formData (dir : String) (parts : List Part) : List (String × String) :=
  ingestLoop dir parts []

/-- Modelled from the spec: a staged path "lies inside" the Request
Workspace when, after normalization, it is strictly beneath the workspace
directory. -/
def insideWorkspace (dir p : String) : Bool :=
  (dir ++ "/").data.isPrefixOf (normpath p).data

/-! ### Workspace lifecycle as an event trace -/

/-- Filesystem-visible effects of a handler run, in order.  Entering
`with tempfile.TemporaryDirectory()` emits `createDir`; leaving the block
(on return or exception) emits `removeTree`. -/
inductive Event where
  | createDir (d : String)
  | removeTree (d : String)
  | writeFile (p : String)
  | invokeRenderer
deriving DecidableEq, Repr

/-- Effect of one event on whether directory `d` exists. -/
def applyEvent (d : String) (b : Bool) : Event → Bool
  | .createDir d' => if d' = d then true else b
  | .removeTree d' => if d' = d then false else b
  | _ => b

/-- Whether directory `d` exists after the trace, starting from
existence state `b`. -/
def dirExistsAfter (d : String) (es : List Event) (b : Bool) : Bool :=
  es.foldl (applyEvent d) b

/-- The `writeFile` events of the ingestion loop, in part order. -/
def savedEvents (dir : String) (parts : List Part) : List Event :=
  (parts.filter (fun p => acceptedName p.name)).map (fun p => .writeFile (savePartToFile dir p))

/-! ### render_pdf (`server.py` lines 43-95) -/

/-- The `stylesheets=[css]` argument: either `CSS(filename=...)` from the
staged `css` part, or `CSS(string=...)` built from inline content. -/
inductive StyleInput where
  | fromFile (path : String)
  | inlineCss (s : String)
deriving DecidableEq, Repr

/-- The literal default stylesheet string of `server.py` line 79. -/
def defaultCss : String := "@page \x7b size: A4; margin: 2cm 2.5cm; \x7d"

/-- The style passed to `write_pdf` (`server.py` lines 76-79). -/
def styleOf (fd : List (String × String)) : StyleInput :=
  match dictGet fd "css" with
  | some p => .fromFile p
  | none => .inlineCss defaultCss

/-- The attachment list (`server.py` lines 81-84). -/
def attachmentsOf (fd : List (String × String)) : List String :=
  (fd.filter (fun kv => "attachment.".data.isPrefixOf kv.1.data)).map Prod.snd

/-- The renderer invocation assembled by `render_pdf`: document path,
style input, attachments, and the allow-list `form_data.values()` captured
by the `URLFetcher`. -/
structure RenderCall where
  htmlPath : String
  style : StyleInput
  attachments : List String
  allowList : List String
deriving DecidableEq, Repr

/-- An HTTP response: status, body text, and the headers the code sets
explicitly. -/
structure Response where
  status : Nat
  body : String
  headers : List (String × String)
deriving DecidableEq, Repr

/-- Headers set by `stream_file` (`server.py` lines 109-118). -/
def streamFileHeaders (contentType fname : String) : List (String × String) :=
  [("Content-Type", contentType),
   ("Content-Disposition", "attachment; filename=\"" ++ basename fname ++ "\"")]

/-- What one `render_pdf` run produced: the response, the filesystem trace,
and the renderer invocation (if any). -/
structure PdfOutcome where
  response : Response
  events : List Event
  call : Option RenderCall
deriving DecidableEq, Repr

/-- `render_pdf(request)`.  `renderFailure = some msg` models
`html.write_pdf` raising an exception with that message; `none` models
success.  The streamed 200 body is abstracted as the empty string. -/
def render_pdf (contentType : String) (parts : List Part) (tempDir : String)
    (renderFailure : Option String) : PdfOutcome :=
  if contentType = "multipart/form-data" then
    let fd := formData tempDir parts
    let pre := Event.createDir tempDir :: savedEvents tempDir parts
    if dictGet fd "html" = none then
      ⟨⟨400, "No html file provided.", []⟩, pre ++ [.removeTree tempDir], none⟩
    else
      let call : RenderCall :=
        ⟨(dictGet fd "html").getD "", styleOf fd, attachmentsOf fd, fd.map Prod.snd⟩
      match renderFailure with
      | some _ =>
        ⟨⟨500, "PDF generation failed.", []⟩,
         pre ++ [.invokeRenderer, .removeTree tempDir], some call⟩
      | none =>
        let pdfFilename := pathJoin tempDir "output.pdf"
        ⟨⟨200, "", streamFileHeaders "application/pdf" pdfFilename⟩,
         pre ++ [.invokeRenderer, .writeFile pdfFilename, .removeTree tempDir], some call⟩
  else
    ⟨⟨400, "Multipart request required.", []⟩, [], none⟩

/-! ### render_pdf_url (`server.py` lines 136-184) -/

/-- Headers set by `stream_file_ext` (`server.py` lines 136-148). -/
def streamFileExtHeaders (contentType outputName : String) (inl : Bool) : List (String × String) :=
  [("Content-Type", contentType),
   ("Content-Disposition",
    (if inl then "inline" else "attachment") ++ "; filename=\"" ++ outputName ++ "\"")]

/-- What one `render_pdf_url` run produced.  `keyError` records the
unhandled `KeyError` from `request.rel_url.query['url']`; `htmlCall` is the
`HTML(...)` construction: the URL and the `url_fetcher` argument (`none`
means the argument was not passed, i.e. the renderer's unrestricted default
fetcher applies). -/
structure UrlOutcome where
  keyError : Bool
  events : List Event
  htmlCall : Option (String × Option (List String))
  response : Option Response
deriving DecidableEq, Repr

/-- `render_pdf_url(request)` over the parsed query (first-match lookup,
as aiohttp's `MultiDict.__getitem__` / `.get` behave). -/
def render_pdf_url (tempDir : String) (query : List (String × String))
    (renderFailure : Option String) : UrlOutcome :=
  match dictGet query "url" with
  | none => ⟨true, [], none, none⟩
  | some url =>
    let outputName := (dictGet query "output").getD "output.pdf"
    let inl := (dictGet query "inline").getD "" = "true"
    match renderFailure with
    | some _ =>
      ⟨false, [.createDir tempDir, .invokeRenderer, .removeTree tempDir],
       some (url, none), some ⟨500, "PDF generation failed.", []⟩⟩
    | none =>
      let pdfFilename := pathJoin tempDir "output.pdf"
      ⟨false, [.createDir tempDir, .invokeRenderer, .writeFile pdfFilename, .removeTree tempDir],
       some (url, none), some ⟨200, "", streamFileExtHeaders "application/pdf" outputName inl⟩⟩

/-! ### Helper lemmas -/

theorem dictGet_dictSet_self (d : List (String × String)) (k v : String) :
    dictGet (dictSet d k v) k = some v := by
  induction d with
  | nil => simp [dictSet, dictGet]
  | cons kv rest ih =>
    obtain ⟨k', v'⟩ := kv
    by_cases h : k' = k
    · simp [dictSet, dictGet, h]
    · simp [dictSet, dictGet, h, ih]

theorem dictGet_dictSet_ne (d : List (String × String)) (k v n : String) (h : k ≠ n) :
    dictGet (dictSet d k v) n = dictGet d n := by
  induction d with
  | nil => simp [dictSet, dictGet, h]
  | cons kv rest ih =>
    obtain ⟨k', v'⟩ := kv
    by_cases h' : k' = k
    · subst h'; simp [dictSet, dictGet, h]
    · simp [dictSet, dictGet, h', ih]

theorem dictGet_dictSet_isSome (d : List (String × String)) (k v n : String)
    (h : (dictGet d n).isSome) : (dictGet (dictSet d k v) n).isSome := by
  by_cases hkn : k = n
  · subst hkn; simp [dictGet_dictSet_self]
  · rwa [dictGet_dictSet_ne _ _ _ _ hkn]

theorem ingestLoop_append (dir : String) (l₁ l₂ : List Part) (fd : List (String × String)) :
    ingestLoop dir (l₁ ++ l₂) fd = ingestLoop dir l₂ (ingestLoop dir l₁ fd) := by
  induction l₁ generalizing fd with
  | nil => rfl
  | cons p ps ih => simp [ingestLoop, ih]

theorem dictGet_ingestLoop_not_named (dir n : String) (parts : List Part)
    (fd : List (String × String)) (h : ∀ p ∈ parts, p.name ≠ n) :
    dictGet (ingestLoop dir parts fd) n = dictGet fd n := by
  induction parts generalizing fd with
  | nil => rfl
  | cons p ps ih =>
    have hp : p.name ≠ n := h p (by simp)
    have hps : ∀ q ∈ ps, q.name ≠ n := fun q hq => h q (by simp [hq])
    simp only [ingestLoop]
    rw [ih _ hps]
    by_cases ha : acceptedName p.name = true
    · simp [ha, dictGet_dictSet_ne _ _ _ _ hp]
    · simp [ha]

theorem dictGet_ingestLoop_isSome (dir n : String) (parts : List Part)
    (fd : List (String × String)) (h : (dictGet fd n).isSome) :
    (dictGet (ingestLoop dir parts fd) n).isSome := by
  induction parts generalizing fd with
  | nil => exact h
  | cons p ps ih =>
    simp only [ingestLoop]
    by_cases ha : acceptedName p.name = true
    · simp only [ha, if_true]
      exact ih _ (dictGet_dictSet_isSome _ _ _ _ h)
    · simp only [ha, if_false]
      exact ih _ h

theorem dictGet_ingestLoop_mem (dir : String) (p : Part) (hacc : acceptedName p.name = true) :
    ∀ (parts : List Part) (fd : List (String × String)), p ∈ parts →
      (dictGet (ingestLoop dir parts fd) p.name).isSome := by
  intro parts
  induction parts with
  | nil => intro fd hmem; cases hmem
  | cons q ps ih =>
    intro fd hmem
    rcases List.mem_cons.mp hmem with heq | hmem'
    · subst heq
      simp only [ingestLoop]
      rw [if_pos hacc]
      exact dictGet_ingestLoop_isSome _ _ _ _ (by simp [dictGet_dictSet_self])
    · exact ih _ hmem'

theorem invokeRenderer_not_mem_savedEvents (dir : String) (parts : List Part) :
    Event.invokeRenderer ∉ savedEvents dir parts := by
  simp [savedEvents]

theorem styleOf_formData_no_css (dir : String) (parts : List Part)
    (h : ∀ q ∈ parts, q.name ≠ "css") :
    styleOf (formData dir parts) = .inlineCss defaultCss := by
  have : dictGet (formData dir parts) "css" = none := by
    rw [formData, dictGet_ingestLoop_not_named _ _ _ _ h]; rfl
  simp [styleOf, this]

theorem styleOf_formData_css (dir : String) (l₁ l₂ : List Part) (p : Part)
    (hname : p.name = "css") (h : ∀ q ∈ l₂, q.name ≠ "css") :
    styleOf (formData dir (l₁ ++ p :: l₂)) = .fromFile (savePartToFile dir p) := by
  have hacc : acceptedName p.name = true := by rw [hname]; rfl
  have : dictGet (formData dir (l₁ ++ p :: l₂)) "css" = some (savePartToFile dir p) := by
    rw [formData, show l₁ ++ p :: l₂ = (l₁ ++ [p]) ++ l₂ by simp,
        ingestLoop_append, dictGet_ingestLoop_not_named _ _ _ _ h,
        ingestLoop_append]
    simp only [ingestLoop]
    rw [if_pos hacc, hname]
    exact dictGet_dictSet_self _ _ _
  simp [styleOf, this]

theorem render_pdf_call_style (parts : List Part) (dir : String) (rf : Option String)
    (hsome : ¬ dictGet (formData dir parts) "html" = none) :
    ((render_pdf "multipart/form-data" parts dir rf).call).map RenderCall.style =
      some (styleOf (formData dir parts)) := by
  cases rf <;> simp [render_pdf, hsome]

/-- Sanity check: a benign relative filename does stage inside the
workspace. -/
theorem savePartToFile_benign :
    insideWorkspace "/tmp/w" (savePartToFile "/tmp/w" ⟨"html", "doc.html"⟩) = true := by
  decide

/-! ### Claim theorems -/

/-- C1 (counterexample): the claim says resolution succeeds exactly when
the canonical, symlink-free form of the path is in the allow-list.  On a
filesystem where `/w/s` is a symbolic link to `/etc/passwd`, the fetcher
accepts `file:///w/s` (because `os.path.abspath` does not resolve symbolic
links) even though the symlink-free canonical form `/etc/passwd` is not in
the allow-list. -/
theorem c1_symlink_counterexample :
    urlFetcherCall ["/w/s"] "/" "file:///w/s" = .delegate "file:///w/s" ∧
    urlparse "file:///w/s" = .ok ⟨"file", "", "/w/s", "", "", ""⟩ ∧
    canonicalSpecPath [("/w/s", "/etc/passwd")] "/" "/w/s" ∉ (["/w/s"] : List String) := by
  decide

/-- C1 (amended): for locators `urlparse` parses without raising, with
empty or file scheme and a non-empty path, the fetcher makes the path
absolute and normalizes `.`/`..` components (`os.path.abspath`, which does
not resolve symbolic links) and delegates to the default loader exactly
when that absolute normalized path is in the allow-list, raising the
permission `ValueError` otherwise. -/
theorem c1_abspath_membership (vp : List String) (cwd url : String) (parts : UrlParts)
    (hok : urlparse url = .ok parts)
    (hs : parts.scheme = "" ∨ parts.scheme = "file")
    (hp : parts.path ≠ "") :
    (urlFetcherCall vp cwd url = .delegate url ↔ abspath cwd parts.path ∈ vp) ∧
    (urlFetcherCall vp cwd url = .delegate url ∨ urlFetcherCall vp cwd url = .errKnownPath) := by
  have hnd : ¬ parts.scheme = "data" := by
    rcases hs with h | h <;> rw [h] <;> decide
  have hcond : (parts.scheme = "" ∨ parts.scheme = "file") ∧ parts.path ≠ "" := ⟨hs, hp⟩
  by_cases hm : abspath cwd parts.path ∈ vp
  · simp [urlFetcherCall, hok, hnd, hcond, hm]
  · simp [urlFetcherCall, hok, hnd, hcond, hm]

/-- C1 (witness): with allow-list `["/w/a.png"]` and working directory
`/w`, the traversal form `file:///w/b/../a.png` normalizes to `/w/a.png`
and is accepted exactly by membership. -/
theorem c1_abspath_membership_witness :
    (urlFetcherCall ["/w/a.png"] "/w" "file:///w/b/../a.png" =
        .delegate "file:///w/b/../a.png" ↔
      abspath "/w" "/w/b/../a.png" ∈ (["/w/a.png"] : List String)) ∧
    (urlFetcherCall ["/w/a.png"] "/w" "file:///w/b/../a.png" =
        .delegate "file:///w/b/../a.png" ∨
      urlFetcherCall ["/w/a.png"] "/w" "file:///w/b/../a.png" = .errKnownPath) :=
  c1_abspath_membership ["/w/a.png"] "/w" "file:///w/b/../a.png"
    ⟨"file", "", "/w/b/../a.png", "", "", ""⟩ (by decide) (by decide) (by decide)

/-- C2 (code bug): `save_part_to_file` stages a part at
`os.path.join(directory, part.filename)` with the client-controlled
declared filename.  An absolute filename such as `/etc/passwd` discards the
workspace directory entirely, and a `..` filename such as `../secret`
escapes it, so the staged path does NOT lie inside the Request Workspace;
the spec's invariant is violated by the code. -/
theorem c2_staging_escapes_workspace :
    acceptedName "html" = true ∧
    savePartToFile "/tmp/w" ⟨"html", "/etc/passwd"⟩ = "/etc/passwd" ∧
    insideWorkspace "/tmp/w" (savePartToFile "/tmp/w" ⟨"html", "/etc/passwd"⟩) = false ∧
    acceptedName "asset.logo" = true ∧
    savePartToFile "/tmp/w" ⟨"asset.logo", "../secret"⟩ = "/tmp/w/../secret" ∧
    insideWorkspace "/tmp/w" (savePartToFile "/tmp/w" ⟨"asset.logo", "../secret"⟩) = false ∧
    Event.writeFile "/etc/passwd" ∈
      (render_pdf "multipart/form-data" [⟨"html", "/etc/passwd"⟩] "/tmp/w" none).events := by
  decide

/-- C3: after every run the workspace directory no longer exists: requests
rejected for a non-multipart content type never create one (their event
trace is empty), and every other exit path of the POST handler, as well as
the GET handler, removes it before returning. -/
theorem c3_workspace_cleanup (ct : String) (parts : List Part) (dir : String)
    (rf rf' : Option String) (query : List (String × String)) :
    dirExistsAfter dir (render_pdf ct parts dir rf).events false = false ∧
    (ct ≠ "multipart/form-data" → (render_pdf ct parts dir rf).events = []) ∧
    dirExistsAfter dir (render_pdf_url dir query rf').events false = false := by
  refine ⟨?_, ?_, ?_⟩
  · by_cases hct : ct = "multipart/form-data"
    · subst hct
      by_cases hh : dictGet (formData dir parts) "html" = none
      · simp [render_pdf, hh, dirExistsAfter, applyEvent]
      · cases rf <;> simp [render_pdf, hh, dirExistsAfter, applyEvent]
    · simp [render_pdf, hct, dirExistsAfter]
  · intro hct
    simp [render_pdf, hct]
  · cases hq : dictGet query "url" <;> cases rf' <;>
      simp [render_pdf_url, hq, dirExistsAfter, applyEvent]

/-- C3 (witness): a non-multipart request creates nothing; a GET run
cleans up its workspace. -/
theorem c3_workspace_cleanup_witness :
    dirExistsAfter "/t" (render_pdf "text/plain" [] "/t" none).events false = false ∧
    (render_pdf "text/plain" [] "/t" none).events = [] ∧
    dirExistsAfter "/t" (render_pdf_url "/t" [] none).events false = false := by
  obtain ⟨h1, h2, h3⟩ := c3_workspace_cleanup "text/plain" [] "/t" none none []
  exact ⟨h1, h2 (by decide), h3⟩

/-- C4 (counterexample): resolution of a data-scheme locator does NOT
always succeed: for `data://[` the `urlparse` call raises
`ValueError("Invalid IPv6 URL")` before the scheme is even tested, so the
fetcher raises instead of delegating. -/
theorem c4_bracket_counterexample :
    urlFetcherCall [] "/" "data://[" = .errParse "Invalid IPv6 URL" ∧
    ¬ urlFetcherCall [] "/" "data://[" = .delegate "data://[" := by
  decide

/-- C4 (amended): a locator that `urlparse` parses without raising and
whose parsed scheme is `data` is delegated to the default loader
unconditionally, whatever the allow-list. -/
theorem c4_data_scheme_delegates (vp : List String) (cwd url : String) (parts : UrlParts)
    (hok : urlparse url = .ok parts) (h : parts.scheme = "data") :
    urlFetcherCall vp cwd url = .delegate url := by
  simp [urlFetcherCall, hok, h]

/-- C4 (witness): a `data:` locator succeeds even with an empty
allow-list (and its `;base64` suffix stays in the path: `data` is not a
`uses_params` scheme). -/
theorem c4_data_scheme_delegates_witness :
    urlFetcherCall [] "/" "data:text/plain;base64,aGk=" =
      .delegate "data:text/plain;base64,aGk=" :=
  c4_data_scheme_delegates [] "/" "data:text/plain;base64,aGk="
    ⟨"data", "", "text/plain;base64,aGk=", "", "", ""⟩ (by decide) rfl

/-- C5 (counterexample): a network-scheme locator is not always rejected
with the external-resources error: for `http://[` the `urlparse` call
raises `ValueError("Invalid IPv6 URL")` instead. -/
theorem c5_bracket_counterexample :
    urlFetcherCall [] "/" "http://[" = .errParse "Invalid IPv6 URL" ∧
    ¬ urlFetcherCall [] "/" "http://[" = .errExternal := by
  decide

/-- C5 (amended): a locator that `urlparse` parses without raising, whose
scheme is neither `data` nor empty nor `file`, or an empty- or file-scheme
locator with no path, is rejected with the external resources `ValueError`
and never delegated. -/
theorem c5_external_rejected (vp : List String) (cwd url : String) (parts : UrlParts)
    (hok : urlparse url = .ok parts)
    (h1 : ¬ parts.scheme = "data")
    (h2 : parts.scheme = "" ∨ parts.scheme = "file" → parts.path = "") :
    urlFetcherCall vp cwd url = .errExternal ∧
    ∀ u, ¬ urlFetcherCall vp cwd url = .delegate u := by
  have hmain : urlFetcherCall vp cwd url = .errExternal := by
    simp only [urlFetcherCall, hok]
    rw [if_neg h1, if_neg]
    rintro ⟨hsch, hpath⟩
    exact hpath (h2 hsch)
  refine ⟨hmain, fun u hu => ?_⟩
  rw [hmain] at hu
  cases hu

/-- C5 (witness): an `http` locator and a path-less `file:` locator are
both rejected as external. -/
theorem c5_external_rejected_witness :
    urlFetcherCall [] "/" "http://evil.example/x.png" = .errExternal ∧
    urlFetcherCall [] "/" "file:" = .errExternal :=
  ⟨(c5_external_rejected [] "/" "http://evil.example/x.png"
      ⟨"http", "evil.example", "/x.png", "", "", ""⟩ (by decide) (by decide) (by decide)).1,
   (c5_external_rejected [] "/" "file:"
      ⟨"file", "", "", "", "", ""⟩ (by decide) (by decide) (by decide)).1⟩

/-- C6: a multipart request whose stream ends without an `html` part gets
exactly status 400 with body "No html file provided.", and the renderer is
never invoked. -/
theorem c6_missing_html_400 (parts : List Part) (dir : String) (rf : Option String)
    (h : ∀ p ∈ parts, p.name ≠ "html") :
    (render_pdf "multipart/form-data" parts dir rf).response =
      ⟨400, "No html file provided.", []⟩ ∧
    (render_pdf "multipart/form-data" parts dir rf).call = none ∧
    Event.invokeRenderer ∉ (render_pdf "multipart/form-data" parts dir rf).events := by
  have hnone : dictGet (formData dir parts) "html" = none := by
    rw [formData, dictGet_ingestLoop_not_named _ _ _ _ h]; rfl
  refine ⟨by simp [render_pdf, hnone], by simp [render_pdf, hnone], ?_⟩
  simp [render_pdf, hnone, invokeRenderer_not_mem_savedEvents]

/-- C6 (witness): a multipart request with only a `css` part yields the
400 response and no renderer call. -/
theorem c6_missing_html_400_witness :
    (render_pdf "multipart/form-data" [⟨"css", "s.css"⟩] "/t" none).response =
      ⟨400, "No html file provided.", []⟩ ∧
    (render_pdf "multipart/form-data" [⟨"css", "s.css"⟩] "/t" none).call = none ∧
    Event.invokeRenderer ∉ (render_pdf "multipart/form-data" [⟨"css", "s.css"⟩] "/t" none).events :=
  c6_missing_html_400 [⟨"css", "s.css"⟩] "/t" none (by decide)

/-- C7: whatever exception message the renderer raises, both handlers catch
it and answer exactly status 500 with body "PDF generation failed." — the
response does not depend on the exception. -/
theorem c7_renderer_failure_500 (parts : List Part) (dir e : String)
    (q : List (String × String)) (u : String)
    (hhtml : ¬ dictGet (formData dir parts) "html" = none)
    (hu : dictGet q "url" = some u) :
    (render_pdf "multipart/form-data" parts dir (some e)).response =
      ⟨500, "PDF generation failed.", []⟩ ∧
    (render_pdf_url dir q (some e)).response = some ⟨500, "PDF generation failed.", []⟩ := by
  constructor
  · simp [render_pdf, hhtml]
  · simp [render_pdf_url, hu]

/-- C7 (witness): a failing render of an uploaded document and of a GET
URL both produce the uniform 500 response. -/
theorem c7_renderer_failure_500_witness :
    (render_pdf "multipart/form-data" [⟨"html", "d.html"⟩] "/t" (some "boom")).response =
      ⟨500, "PDF generation failed.", []⟩ ∧
    (render_pdf_url "/t" [("url", "http://x/")] (some "boom")).response =
      some ⟨500, "PDF generation failed.", []⟩ :=
  c7_renderer_failure_500 [⟨"html", "d.html"⟩] "/t" "boom" [("url", "http://x/")] "http://x/"
    (by decide) (by decide)

/-- C8: with an `html` part present, the style passed to the renderer is
the inline built-in default `@page ... size: A4; margin: 2cm 2.5cm ...`
when no `css` part was uploaded, and the staged path of the (last) `css`
part when one was. -/
theorem c8_style_selection (parts : List Part) (dir : String) (rf : Option String)
    (hhtml : ∃ p ∈ parts, p.name = "html") :
    ((∀ q ∈ parts, q.name ≠ "css") →
      ((render_pdf "multipart/form-data" parts dir rf).call).map RenderCall.style =
        some (.inlineCss defaultCss)) ∧
    (∀ (l₁ l₂ : List Part) (p : Part), parts = l₁ ++ p :: l₂ → p.name = "css" →
      (∀ q ∈ l₂, q.name ≠ "css") →
      ((render_pdf "multipart/form-data" parts dir rf).call).map RenderCall.style =
        some (.fromFile (savePartToFile dir p))) := by
  obtain ⟨p, hpmem, hpname⟩ := hhtml
  have hacc : acceptedName p.name = true := by rw [hpname]; rfl
  have hsome : ¬ dictGet (formData dir parts) "html" = none := by
    have := dictGet_ingestLoop_mem dir p hacc parts [] hpmem
    rw [hpname] at this
    rw [formData]
    exact Option.isSome_iff_ne_none.mp this
  constructor
  · intro hnocss
    rw [render_pdf_call_style _ _ _ hsome, styleOf_formData_no_css _ _ hnocss]
  · intro l₁ l₂ q hsplit hq hl₂
    rw [render_pdf_call_style _ _ _ hsome, hsplit, styleOf_formData_css _ _ _ _ hq hl₂]

/-- C8 (witness): without a `css` part the inline default style is used;
with one, its staged path is used. -/
theorem c8_style_selection_witness :
    ((render_pdf "multipart/form-data" [⟨"html", "d.html"⟩] "/t" none).call).map
        RenderCall.style = some (.inlineCss defaultCss) ∧
    ((render_pdf "multipart/form-data" [⟨"html", "d.html"⟩, ⟨"css", "s.css"⟩] "/t" none).call).map
        RenderCall.style = some (.fromFile (savePartToFile "/t" ⟨"css", "s.css"⟩)) :=
  ⟨(c8_style_selection [⟨"html", "d.html"⟩] "/t" none
      ⟨⟨"html", "d.html"⟩, by simp, rfl⟩).1 (by decide),
   (c8_style_selection [⟨"html", "d.html"⟩, ⟨"css", "s.css"⟩] "/t" none
      ⟨⟨"html", "d.html"⟩, by simp, rfl⟩).2
     [⟨"html", "d.html"⟩] [] ⟨"css", "s.css"⟩ rfl rfl (by decide)⟩

/-- C9: a GET request with a `url` parameter invokes the renderer on that
URL with no url_fetcher bound; on success the response carries the
`output` query parameter (default `output.pdf`) as filename, with an
`inline` disposition exactly when the `inline` parameter equals "true". -/
theorem c9_get_mode (tempDir : String) (query : List (String × String))
    (rf : Option String) (u : String) (hu : dictGet query "url" = some u) :
    (render_pdf_url tempDir query rf).htmlCall = some (u, none) ∧
    (rf = none →
      (render_pdf_url tempDir query rf).response =
        some ⟨200, "",
          [("Content-Type", "application/pdf"),
           ("Content-Disposition",
            (if (dictGet query "inline").getD "" = "true" then "inline" else "attachment")
              ++ "; filename=\"" ++ (dictGet query "output").getD "output.pdf" ++ "\"")]⟩) := by
  cases rf <;> simp [render_pdf_url, hu, streamFileExtHeaders]

/-- C9 (witness): `inline=true` and `output=a.pdf` produce an inline
disposition with that filename, and the URL is handed to the renderer with
no fetcher. -/
theorem c9_get_mode_witness :
    (render_pdf_url "/t" [("url", "http://x/"), ("inline", "true"), ("output", "a.pdf")]
        none).htmlCall = some ("http://x/", none) ∧
    (render_pdf_url "/t" [("url", "http://x/"), ("inline", "true"), ("output", "a.pdf")]
        none).response =
      some ⟨200, "",
        [("Content-Type", "application/pdf"),
         ("Content-Disposition", "inline; filename=\"a.pdf\"")]⟩ := by
  obtain ⟨h1, h2⟩ :=
    c9_get_mode "/t" [("url", "http://x/"), ("inline", "true"), ("output", "a.pdf")]
      none "http://x/" (by decide)
  refine ⟨h1, ?_⟩
  rw [h2 rfl]
  decide

/-- C10: a GET request without a `url` query parameter raises an unhandled
lookup error before any workspace is created or any renderer call is made,
and produces no graceful 4xx response. -/
theorem c10_missing_url_keyerror (tempDir : String) (query : List (String × String))
    (rf : Option String) (h : dictGet query "url" = none) :
    (render_pdf_url tempDir query rf).keyError = true ∧
    (render_pdf_url tempDir query rf).events = [] ∧
    (render_pdf_url tempDir query rf).htmlCall = none ∧
    (render_pdf_url tempDir query rf).response = none := by
  simp [render_pdf_url, h]

/-- C10 (witness): the empty query triggers the unhandled lookup error. -/
theorem c10_missing_url_keyerror_witness :
    (render_pdf_url "/t" [] none).keyError = true ∧
    (render_pdf_url "/t" [] none).events = [] ∧
    (render_pdf_url "/t" [] none).htmlCall = none ∧
    (render_pdf_url "/t" [] none).response = none :=
  c10_missing_url_keyerror "/t" [] none rfl

end WeasyServer
